import Mathlib

/-!
Verification development for the kbuilder core (kbuilder/core/gcc.py and
kbuilder/core/kernel.py), a shallow embedding of the Python code together
with theorems settling the specification claims C1 to C10.

Conventions of the embedding:
* Filesystem access is a parameter: a scan that would raise is `none`.
* Python exceptions are values of `PyErr`; fallible code returns `Except`.
* Paths handled by `find_root` are lists of components, innermost first,
  with `[]` standing for the filesystem root, so walking to the parent is
  structural recursion.
* The source field `_compiler_prefix` of class Toolchain is called
  `compiler_stem` here; everything else keeps the source name.
-/

namespace Kbuilder

/-- Python runtime errors arising on the embedded code paths. -/
inductive PyErr where
  | typeError (msg : String)
  | attributeError (missing : String)
  | indexError
  | valueError
  | osError
  deriving DecidableEq

/-- Modelled from the spec: the architecture enumeration of
kbuilder.core.arch, which is not among the sources; gcc.py uses exactly the
members arm64 and arm in its compiler_prefixes mapping. -/
inductive Arch where
  | arm64
  | arm
  deriving DecidableEq

/-- os.path.join of a directory and an entry name, as used by DirEntry.path
and unipath Path.child. -/
def joinPath (dir name : String) : String := dir ++ "/" ++ name

/-- unipath Path.name: the basename, the part after the final slash. -/
def basename (p : String) : String := (p.splitOn "/").getLastD ""

/-- Filesystem view used by gcc.py: `scandir` returns the entry names of a
directory, `none` when os.scandir would raise; `isdir` is Path.isdir. -/
structure GFS where
  scandir : String → Option (List String)
  isdir : String → Bool

/-- gcc.py lines 94-97: the first bin entry whose name ends in "gcc"
yields entry.path minus its final 3 characters; none when no entry
matches. The scan order is the order the OS reports. -/
def first_gcc_stem (binDir : String) : List String → Option String
  | [] => none
  | n :: rest =>
    if n.endsWith "gcc" then some ((joinPath binDir n).dropRight 3)
    else first_gcc_stem binDir rest

/-- gcc.py lines 82-97, find_compiler_prefix: the inner helper
find_binaries swallows a failed os.scandir of root/bin but then returns
None, so the enclosing for loop raises TypeError on it; with a successful
scan the result is the stem of the first gcc entry or None. -/
def find_compiler_stem (fs : GFS) (root : String) : Except PyErr (Option String) :=
  match fs.scandir (joinPath root "bin") with
  | none => .error (.typeError "NoneType object is not iterable")
  | some names => .ok (first_gcc_stem (joinPath root "bin") names)

/-- gcc.py lines 99-105, _find_target_arch: match the basename of the
compiler stem against the fixed mapping aarch64 to arm64 and arm-eabi to
arm; neither key is a string-prefix of the other, so the dictionary
iteration order cannot change the result. -/
def find_target_arch (stem : String) : Option Arch :=
  if (basename stem).startsWith "aarch64" then some .arm64
  else if (basename stem).startsWith "arm-eabi" then some .arm
  else none

/-- A Toolchain instance as it exists after a construction that did not
raise. The source field _compiler_prefix is `compiler_stem` here. -/
structure Toolchain where
  root : String
  name : String
  compiler_stem : String
  target_arch : Option Arch
  deriving DecidableEq

/-- gcc.py lines 30-39, Toolchain.__init__: when find_compiler_prefix
produced None, the unipath call Path(None) raises TypeError, so
construction only succeeds when a gcc binary was found. -/
def mkToolchain (fs : GFS) (root : String) : Except PyErr Toolchain :=
  match find_compiler_stem fs root with
  | .error e => .error e
  | .ok none => .error (.typeError "Path arguments must be strings")
  | .ok (some stem) =>
    .ok { root := root, name := basename root, compiler_stem := stem,
          target_arch := find_target_arch stem }

/-- gcc.py lines 45-50, the body of Toolchain.__nonzero__: root is a
directory and root/bin is a directory. Python 3 never invokes __nonzero__,
which is the Python 2 truthiness protocol; compare `pyTruthy`. -/
def toolchain_nonzero (fs : GFS) (root : String) : Bool :=
  fs.isdir root && fs.isdir (joinPath root "bin")

/-- Python 3 truthiness of a Toolchain instance: the class defines neither
__bool__ nor __len__, so every instance is truthy and the __nonzero__
method is dead code under the required Python 3.5 and later. -/
def pyTruthy (_tc : Toolchain) : Bool := true

/-- gcc.py lines 129-130, valid_arch: no filter requested, or the resolved
target architecture equals the requested one. -/
def valid_arch (target : Option Arch) (tc : Toolchain) : Bool :=
  match target with
  | none => true
  | some a => tc.target_arch == some a

/-- Insertion step of a stable sort of entry names, ascending. -/
def insertName (s : String) : List String → List String
  | [] => [s]
  | x :: xs => if s ≤ x then s :: x :: xs else x :: insertName s xs

/-- sorted(entries, key = name): stable ascending sort of the entry names
(gcc.py line 132). -/
def sortNames : List String → List String
  | [] => []
  | x :: xs => insertName x (sortNames xs)

/-- gcc.py lines 134-137, the loop body of scandir: construct a Toolchain
per entry (any exception propagates), keep it when it is truthy and passes
the architecture filter. -/
def scandir_loop (fs : GFS) (dir : String) (target : Option Arch) :
    List String → List Toolchain → Except PyErr (List Toolchain)
  | [], acc => .ok acc
  | n :: rest, acc =>
    match mkToolchain fs (joinPath dir n) with
    | .error e => .error e
    | .ok tc =>
      if pyTruthy tc && valid_arch target tc then
        scandir_loop fs dir target rest (acc ++ [tc])
      else
        scandir_loop fs dir target rest acc

/-- gcc.py lines 113-138, scandir: a failed scan of the toolchain
directory itself propagates; otherwise the entries are sorted by name and
the loop runs. -/
def scandir (fs : GFS) (dir : String) (target : Option Arch) :
    Except PyErr (List Toolchain) :=
  match fs.scandir dir with
  | none => .error .osError
  | some names => scandir_loop fs dir target (sortNames names) []

/-- Python str.split() with no argument: split on runs of whitespace,
producing no empty tokens. The accumulator holds the current word
reversed. -/
def split_ws_aux : List Char → List Char → List String
  | [], acc => if acc.isEmpty then [] else [String.mk acc.reverse]
  | c :: rest, acc =>
    if c.isWhitespace then
      if acc.isEmpty then split_ws_aux rest []
      else String.mk acc.reverse :: split_ws_aux rest []
    else split_ws_aux rest (c :: acc)

/-- Decimal digit value of a character, none for a non-digit. -/
def digit_val (c : Char) : Option Nat :=
  if c.isDigit then some (c.toNat - 48) else none

/-- Accumulate decimal digits; none on a non-digit, none for the empty
digit string. -/
def parse_nat_digits : List Char → Option Nat → Option Nat
  | [], acc => acc
  | c :: rest, acc =>
    match digit_val c, acc with
    | some d, some a => parse_nat_digits rest (some (a * 10 + d))
    | some d, none => parse_nat_digits rest (some d)
    | none, _ => none

/-- Python int() on one token, for plain decimal tokens with an optional
leading minus sign. -/
def parse_int_token (t : List Char) : Option Int :=
  match t with
  | '-' :: rest =>
    match parse_nat_digits rest none with
    | some a => some (-(a : Int))
    | none => none
  | _ =>
    match parse_nat_digits t none with
    | some a => some ((a : Int))
    | none => none

/-- int(x) over each token; a malformed token raises ValueError. -/
def parse_ints : List String → Except PyErr (List Int)
  | [] => .ok []
  | t :: rest =>
    match parse_int_token t.data with
    | none => .error .valueError
    | some n =>
      match parse_ints rest with
      | .error e => .error e
      | .ok ns => .ok (n :: ns)

/-- gcc.py line 161: split the operator input line on whitespace and parse
each token with int. -/
def parse_numbers (line : String) : Except PyErr (List Int) :=
  parse_ints (split_ws_aux line.data [])

/-- Python index normalization for a list of the given length: a negative
index counts from the end. -/
def py_index (len : Nat) (i : Int) : Int :=
  if i < 0 then i + len else i

/-- Python list subscription toolchains[i]: negative wraparound, and
IndexError when the normalized index is outside the list. -/
def py_get (ts : List Toolchain) (i : Int) : Except PyErr Toolchain :=
  if 0 ≤ py_index ts.length i then
    match ts[(py_index ts.length i).toNat]? with
    | some t => .ok t
    | none => .error .indexError
  else .error .indexError

/-- gcc.py lines 162-163, the yield loop: emit toolchains[number - 1] per
entered number, in order; an indexing failure ends the iteration with the
exception. -/
def yield_all (ts : List Toolchain) : List Int → Except PyErr (List Toolchain)
  | [] => .ok []
  | n :: rest =>
    match py_get ts (n - 1) with
    | .error e => .error e
    | .ok t =>
      match yield_all ts rest with
      | .error e => .error e
      | .ok more => .ok (t :: more)

/-- gcc.py lines 141-163, select, observed by exhausting the returned
object against one operator input line. The body contains yield, so
Python compiles the whole function to a generator: for a list of at most
one toolchain the early return merely ends the iteration, yielding nothing
and reading no input; otherwise the menu is printed, the line read, parsed
and each number turned into a subscription. -/
def select (ts : List Toolchain) (line : String) : Except PyErr (List Toolchain) :=
  if ts.length ≤ 1 then .ok []
  else
    match parse_numbers line with
    | .error e => .error e
    | .ok nums => yield_all ts nums

/-- kernel.py lines 26-27: the structural signature of a kernel root. -/
def KERNEL_DIRS : List String :=
  ["arch", "crypto", "Documentation", "drivers", "include", "scripts", "tools"]

/-- Directory listings for find_root over component-list paths (innermost
component first, [] the filesystem root). -/
structure KFS where
  listing : List String → List String

/-- kernel.py lines 130-133, is_kernel_root: every required name occurs
among the entries of the directory. -/
def is_kernel_root (fs : KFS) (p : List String) : Bool :=
  KERNEL_DIRS.all (fun d => (fs.listing p).contains d)

/-- kernel.py lines 135-145, walk_to_root: return the current directory
when it matches, stop with none at the filesystem root, otherwise recurse
on the parent. -/
def find_root (fs : KFS) : List String → Option (List String)
  | [] => if is_kernel_root fs [] then some [] else none
  | x :: rest =>
    if is_kernel_root fs (x :: rest) then some (x :: rest) else find_root fs rest

/-- Number of directories find_root probes before answering. -/
def find_root_steps (fs : KFS) : List String → Nat
  | [] => 1
  | x :: rest =>
    if is_kernel_root fs (x :: rest) then 1 else 1 + find_root_steps fs rest

/-- The attribute names defined by class Kernel (kernel.py lines 30-189).
Line 102 defines the misspelled `_find_kernel_verion`; no attribute named
`_find_kernel_version` exists. -/
def kernelMethodNames : List String :=
  ["__init__", "root", "name", "version", "extra_version", "release_version",
   "arch", "defconfig", "kbuild_image", "_find_kernel_verion", "__enter__",
   "__exit__", "find_root", "arch_clean", "clean", "make_defconfig",
   "build_kbuild_image"]

/-- Python str.rstrip(): drop trailing whitespace. -/
def rstrip (s : String) : String :=
  String.mk (s.data.reverse.dropWhile Char.isWhitespace).reverse

/-- kernel.py lines 102-107, the body of _find_kernel_verion as a function
of the captured collaborator stdout: rstrip, split on newline, last line,
drop the fixed 8-character banner. -/
def find_kernel_verion (output : String) : String :=
  (((rstrip output).splitOn "\n").getLastD "").drop 8

/-- kernel.py line 63: the version property body evaluates
self._find_kernel_version(). Python resolves the attribute at call time;
the class defines only the misspelled `_find_kernel_verion`, so the lookup
decides between running that body and AttributeError. -/
def kernel_version_access (output : String) : Except PyErr String :=
  if kernelMethodNames.contains "_find_kernel_version" then
    .ok (find_kernel_verion output)
  else .error (.attributeError "_find_kernel_version")

/-- Modelled from the spec: the fixed per-architecture kbuild image
filename mapping of kbuilder.core.kbuild_image, which is not among the
sources; only its existence matters to the claims. -/
def kbuildImageName : Arch → String
  | .arm64 => "Image.gz-dtb"
  | .arm => "zImage"

/-- A Kernel instance as it would exist after a construction that did not
raise. -/
structure Kernel where
  root : String
  version : String
  release_version_init : String
  extra_version : Option String
  defconfig : String
  arch : Arch
  kbuild_image : String
  deriving DecidableEq

/-- kernel.py lines 32-48, Kernel.__init__, with the collaborator stdout a
parameter: line 44 reads self.version, whose property body raises
AttributeError for the misspelled method name, so the later lines never
run; had line 44 succeeded, line 48 would evaluate self.arch.name, which
raises AttributeError "name" on a None architecture. -/
def mkKernel (output root : String) (arch : Option Arch) (defconfig : String) :
    Except PyErr Kernel :=
  match kernel_version_access output with
  | .error e => .error e
  | .ok v =>
    match arch with
    | none => .error (.attributeError "name")
    | some a =>
      .ok { root := root, version := v, release_version_init := v,
            extra_version := none, defconfig := defconfig, arch := a,
            kbuild_image := kbuildImageName a }

/-- Python truthiness of the optional extra_version string: None and the
empty string are falsy. -/
def truthy_opt_str : Option String → Bool
  | none => false
  | some s => !(s == "")

/-- kernel.py lines 75-83, the release_version property as a function of
the instance fields version and _extra_version. -/
def release_version (version : String) (extra : Option String) : String :=
  if truthy_opt_str extra then version ++ "-" ++ extra.getD "" else version

/-- Process state touched by the Kernel context manager: the working
directory, plus the environment as an example of state the body may
mutate. -/
structure PyWorld where
  cwd : String
  env : List (String × String)
  deriving DecidableEq

/-- kernel.py lines 109-116, __enter__ and __exit__ composed with the
Python with-statement: save the working directory, chdir to root, run the
body (which may finish with an uncaught exception), chdir back, and return
False so that the exception is never suppressed. -/
def with_kernel (root : String) (body : PyWorld → PyWorld × Option PyErr)
    (s : PyWorld) : PyWorld × Option PyErr :=
  let prev := s.cwd
  let r := body { s with cwd := root }
  let after : PyWorld := { r.1 with cwd := prev }
  let suppress := false
  (after, if suppress then none else r.2)

/-- Fixture: a toolchain directory /tc with one entry t, where /tc/t and
/tc/t/bin are directories and /tc/t/bin is empty. -/
def fs1 : GFS :=
  { scandir := fun p =>
      if p = "/tc" then some ["t"]
      else if p = "/tc/t/bin" then some ([] : List String)
      else none,
    isdir := fun p => p = "/tc" || p = "/tc/t" || p = "/tc/t/bin" }

/-- Fixture: a filesystem on which every scan fails. -/
def fs3 : GFS := { scandir := fun _ => none, isdir := fun _ => false }

/-- Fixture toolchain a. -/
def tcA : Toolchain :=
  { root := "/tc/a", name := "a",
    compiler_stem := "/tc/a/bin/aarch64-linux-android-",
    target_arch := some .arm64 }

/-- Fixture toolchain b. -/
def tcB : Toolchain :=
  { root := "/tc/b", name := "b",
    compiler_stem := "/tc/b/bin/aarch64-linux-android-",
    target_arch := some .arm64 }

/-- Fixture toolchain c. -/
def tcC : Toolchain :=
  { root := "/tc/c", name := "c",
    compiler_stem := "/tc/c/bin/arm-eabi-",
    target_arch := some .arm }

/-- Fixture: a tree whose directory kroot, one level above the start,
carries the full kernel signature. -/
def kfs0 : KFS :=
  { listing := fun p => if p = ["kroot"] then KERNEL_DIRS else ["stuff"] }

/-- C1: the claim that discovery returns exactly the valid toolchains of
the directory (filtered by architecture, sorted by name) fails on the
code: the fixture entry t is a valid toolchain per the __nonzero__ body,
yet scandir raises TypeError out of Toolchain construction (Path(None),
because the empty bin holds no gcc binary) instead of returning [t]. -/
theorem scandir_raises_on_valid_gccless_entry :
    toolchain_nonzero fs1 "/tc/t" = true ∧
    scandir fs1 "/tc" none =
      Except.error (PyErr.typeError "Path arguments must be strings") := by
  constructor
  · rfl
  · rfl

/-- C2: the claim that version is computed by invoking the build
collaborator kernelrelease target fails on the code: the version property
calls self._find_kernel_version(), but the class defines only the
misspelled _find_kernel_verion, so for every collaborator output the
access raises AttributeError and the computation never runs. -/
theorem version_access_raises_attribute_error (output : String) :
    kernel_version_access output =
      Except.error (PyErr.attributeError "_find_kernel_version") := rfl

/-- C3: the claim that Toolchain construction never raises when root/bin
cannot be scanned fails on the code: find_binaries swallows the scan error
but returns None, and the for loop over None raises TypeError, as the
evaluation on a filesystem where every scan fails shows. -/
theorem toolchain_init_raises_when_bin_unscannable :
    mkToolchain fs3 "/x" =
      Except.error (PyErr.typeError "NoneType object is not iterable") := rfl

/-- C4: the claim that select returns a singleton input unchanged fails on
the code: select is a generator function, so the early return ends the
iteration at once and the observed output for [tcA] is the empty sequence,
not [tcA]. -/
theorem select_single_yields_nothing :
    select [tcA] "" = Except.ok ([] : List Toolchain) ∧
    ([] : List Toolchain) ≠ [tcA] := by
  constructor
  · rfl
  · decide

/-- C7 counterexample: the entered number 0 lies outside the valid 1-based
range of [tcA, tcB, tcC], yet select does not fail: Python subscription
maps index -1 to the last element and tcC is yielded. -/
theorem select_zero_wraps_around :
    select [tcA, tcB, tcC] "0" = Except.ok [tcC] := rfl

/-- C8 counterexample: with extra_version set to the empty string the
release version is the bare version, not the version with a dash and the
empty extra appended. -/
theorem release_version_empty_extra_is_bare_version :
    release_version "4.9.1" (some "") = "4.9.1" ∧
    release_version "4.9.1" (some "") ≠ "4.9.1-" := by
  constructor
  · rfl
  · decide

/-- C9: the Kernel context manager sets the working directory to root for
the body, restores the previous working directory on exit whether or not
the body finished with an exception, leaves the rest of the process state
as the body left it, and never suppresses the exception. -/
theorem with_kernel_restores_cwd (root : String)
    (body : PyWorld → PyWorld × Option PyErr) (s : PyWorld) :
    (with_kernel root body s).1.cwd = s.cwd ∧
    (with_kernel root body s).1.env = (body { s with cwd := root }).1.env ∧
    (with_kernel root body s).2 = (body { s with cwd := root }).2 := by
  unfold with_kernel
  exact ⟨rfl, rfl, rfl⟩

/-- C10 counterexample: constructing a Kernel without an architecture does
fail, but not by dereferencing the None architecture: the error is the
AttributeError for the misspelled _find_kernel_version raised at the
version read on line 44, not the AttributeError "name" of line 48. -/
theorem kernel_init_error_is_not_arch_deref :
    mkKernel "out" "/kernel" none "defconfig" =
      Except.error (PyErr.attributeError "_find_kernel_version") ∧
    mkKernel "out" "/kernel" none "defconfig" ≠
      Except.error (PyErr.attributeError "name") := by
  constructor
  · rfl
  · intro hc
    rw [(rfl : mkKernel "out" "/kernel" none "defconfig" =
      Except.error (PyErr.attributeError "_find_kernel_version"))] at hc
    injection hc with hc2
    revert hc2
    decide

/-- C10 amended: Kernel construction fails for every collaborator output,
root and architecture argument, None included, with the AttributeError of
the misspelled version method, raised before the architecture is ever
dereferenced. -/
theorem kernel_init_always_raises_version_typo (output root defconfig : String)
    (arch : Option Arch) :
    mkKernel output root arch defconfig =
      Except.error (PyErr.attributeError "_find_kernel_version") := rfl

/-- C5: find_root returns the nearest ancestor (the longest suffix in the
innermost-first path representation, the start itself included) whose
listing carries the whole KERNEL_DIRS signature; it returns none exactly
when no ancestor up to the filesystem root does; and it probes at most
depth plus one directories. -/
theorem find_root_correct (fs : KFS) (p : List String) :
    (∀ q, find_root fs p = some q →
      q <:+ p ∧ is_kernel_root fs q = true ∧
      ∀ r, r <:+ p → q.length < r.length → is_kernel_root fs r = false) ∧
    (find_root fs p = none → ∀ r, r <:+ p → is_kernel_root fs r = false) ∧
    find_root_steps fs p ≤ p.length + 1 := by
  induction p with
  | nil =>
    cases hk : is_kernel_root fs [] with
    | true =>
      have hfr : find_root fs [] = some [] := by simp [find_root, hk]
      refine ⟨?_, ?_, ?_⟩
      · intro q hq
        rw [hfr] at hq
        injection hq with hq2
        subst hq2
        refine ⟨List.suffix_refl _, hk, ?_⟩
        intro r hr hlen2
        have h1 := List.IsSuffix.length_le hr
        simp only [List.length_nil] at h1 hlen2
        omega
      · intro hq
        rw [hfr] at hq
        exact Option.noConfusion hq
      · simp [find_root_steps]
    | false =>
      have hfr : find_root fs [] = none := by simp [find_root, hk]
      refine ⟨?_, ?_, ?_⟩
      · intro q hq
        rw [hfr] at hq
        exact Option.noConfusion hq
      · intro _ r hr
        have hr2 : r = [] := List.suffix_nil.mp hr
        subst hr2
        exact hk
      · simp [find_root_steps]
  | cons x rest ih =>
    obtain ⟨ih1, ih2, ih3⟩ := ih
    cases hk : is_kernel_root fs (x :: rest) with
    | true =>
      have hfr : find_root fs (x :: rest) = some (x :: rest) := by
        simp [find_root, hk]
      refine ⟨?_, ?_, ?_⟩
      · intro q hq
        rw [hfr] at hq
        injection hq with hq2
        subst hq2
        refine ⟨List.suffix_refl _, hk, ?_⟩
        intro r hr hlen2
        have h1 := List.IsSuffix.length_le hr
        omega
      · intro hq
        rw [hfr] at hq
        exact Option.noConfusion hq
      · simp [find_root_steps, hk]
    | false =>
      have hfr : find_root fs (x :: rest) = find_root fs rest := by
        simp [find_root, hk]
      have hst : find_root_steps fs (x :: rest) = 1 + find_root_steps fs rest := by
        simp [find_root_steps, hk]
      refine ⟨?_, ?_, ?_⟩
      · intro q hq
        rw [hfr] at hq
        obtain ⟨hq1, hq2, hq3⟩ := ih1 q hq
        refine ⟨hq1.trans (List.suffix_cons x rest), hq2, ?_⟩
        intro r hr hlen2
        rcases List.suffix_cons_iff.mp hr with h1 | h2
        · rw [h1]
          exact hk
        · exact hq3 r h2 hlen2
      · intro hq r hr
        rw [hfr] at hq
        rcases List.suffix_cons_iff.mp hr with h1 | h2
        · rw [h1]
          exact hk
        · exact ih2 hq r h2
      · rw [hst]
        simp only [List.length_cons]
        omega

/-- Witness for C5: on the fixture tree, the directory kroot one level
above the start is recognized as the nearest kernel root. -/
theorem find_root_correct_witness :
    (["kroot"] : List String) <:+ ["sub", "kroot"] ∧
    is_kernel_root kfs0 ["kroot"] = true ∧
    ∀ r, r <:+ ["sub", "kroot"] →
      (["kroot"] : List String).length < r.length →
      is_kernel_root kfs0 r = false :=
  (find_root_correct kfs0 ["sub", "kroot"]).1 ["kroot"] rfl

/-- A successful Python subscription agrees with getD for a 1-based
in-range number. -/
theorem py_get_ok (ts : List Toolchain) (d : Toolchain) (n : Int)
    (h1 : 1 ≤ n) (h2 : n ≤ (ts.length : Int)) :
    py_get ts (n - 1) = Except.ok (ts.getD (n - 1).toNat d) := by
  have hpi : py_index ts.length (n - 1) = n - 1 := if_neg (by omega)
  have hlt : (n - 1).toNat < ts.length := by omega
  unfold py_get
  rw [hpi, if_pos (by omega), List.getElem?_eq_getElem hlt]
  rw [List.getD_eq_getElem?_getD, List.getElem?_eq_getElem hlt]
  rfl

/-- A Python subscription whose index is outside [-len, len) raises
IndexError. -/
theorem py_get_err (ts : List Toolchain) (i : Int)
    (h : i < -(ts.length : Int) ∨ (ts.length : Int) ≤ i) :
    py_get ts i = Except.error PyErr.indexError := by
  unfold py_get
  by_cases h0 : i < 0
  · have hlow : i < -(ts.length : Int) := by
      rcases h with h1 | h1
      · exact h1
      · exfalso
        omega
    have hpi : py_index ts.length i = i + ts.length := if_pos h0
    rw [hpi, if_neg (by omega)]
  · have hhigh : (ts.length : Int) ≤ i := by
      rcases h with h1 | h1
      · exfalso
        omega
      · exact h1
    have hpi : py_index ts.length i = i := if_neg h0
    rw [hpi, if_pos (by omega), List.getElem?_eq_none (by omega)]

/-- A Python subscription whose index lies in [-len, len) succeeds. -/
theorem py_get_some (ts : List Toolchain) (i : Int)
    (h1 : -(ts.length : Int) ≤ i) (h2 : i < (ts.length : Int)) :
    ∃ t, py_get ts i = Except.ok t := by
  unfold py_get
  by_cases h0 : i < 0
  · have hpi : py_index ts.length i = i + ts.length := if_pos h0
    have hlt : (i + ts.length).toNat < ts.length := by omega
    rw [hpi, if_pos (by omega), List.getElem?_eq_getElem hlt]
    exact ⟨_, rfl⟩
  · have hpi : py_index ts.length i = i := if_neg h0
    have hlt : i.toNat < ts.length := by omega
    rw [hpi, if_pos (by omega), List.getElem?_eq_getElem hlt]
    exact ⟨_, rfl⟩

/-- The yield loop raises IndexError at the first entered number whose
index is out of range, when the numbers before it are accepted. -/
theorem yield_all_err (ts : List Toolchain) (n : Int) (post : List Int)
    (hn : n - 1 < -(ts.length : Int) ∨ (ts.length : Int) ≤ n - 1) :
    ∀ pre : List Int,
      (∀ m, m ∈ pre → -(ts.length : Int) ≤ m - 1 ∧ m - 1 < (ts.length : Int)) →
      yield_all ts (pre ++ n :: post) = Except.error PyErr.indexError := by
  intro pre
  induction pre with
  | nil =>
    intro _
    simp only [List.nil_append, yield_all]
    rw [py_get_err ts (n - 1) hn]
  | cons m pre2 ih =>
    intro hpre
    have hm := hpre m (by simp)
    obtain ⟨t, ht⟩ := py_get_some ts (m - 1) hm.1 hm.2
    have hrec := ih (fun a ha => hpre a (by simp [ha]))
    simp only [List.cons_append, yield_all]
    rw [ht]
    simp only [List.append_eq]
    rw [hrec]

/-- C6: with more than one toolchain and an input line parsing to numbers
that all lie in the 1-based range, select yields toolchains[number - 1]
for each entered number in the order entered, duplicates included. -/
theorem select_mapping (ts : List Toolchain) (line : String)
    (nums : List Int) (d : Toolchain)
    (hp : parse_numbers line = Except.ok nums) (hlen : 1 < ts.length)
    (hin : ∀ m, m ∈ nums → 1 ≤ m ∧ m ≤ (ts.length : Int)) :
    select ts line = Except.ok (nums.map (fun k => ts.getD (k - 1).toNat d)) := by
  have hy : ∀ ns : List Int,
      (∀ m, m ∈ ns → 1 ≤ m ∧ m ≤ (ts.length : Int)) →
      yield_all ts ns = Except.ok (ns.map (fun k => ts.getD (k - 1).toNat d)) := by
    intro ns
    induction ns with
    | nil =>
      intro _
      rfl
    | cons k rest ih =>
      intro hin2
      have hk := hin2 k (by simp)
      simp only [yield_all]
      rw [py_get_ok ts d k hk.1 hk.2, ih (fun a ha => hin2 a (by simp [ha]))]
      rfl
  unfold select
  rw [if_neg (by omega), hp]
  exact hy nums hin

/-- Witness for C6: toolchains [tcA, tcB, tcC] and operator input "2 1"
select [tcB, tcA] in that order. -/
theorem select_mapping_witness :
    select [tcA, tcB, tcC] "2 1" = Except.ok [tcB, tcA] := by
  exact select_mapping [tcA, tcB, tcC] "2 1" [2, 1] tcA rfl (by decide) (by decide)

/-- C7 amended: with more than one toolchain, an entered number whose
zero-based index falls outside the range Python accepts (number greater
than len, or at most -len) makes select fail with IndexError, yielding no
toolchain for it, provided the numbers before it are accepted; numbers
between 1 - len and 0 instead select from the end of the list. -/
theorem select_out_of_range_raises (ts : List Toolchain) (line : String)
    (pre : List Int) (n : Int) (post : List Int)
    (hp : parse_numbers line = Except.ok (pre ++ n :: post)) (hlen : 1 < ts.length)
    (hpre : ∀ m, m ∈ pre → -(ts.length : Int) ≤ m - 1 ∧ m - 1 < (ts.length : Int))
    (hn : n - 1 < -(ts.length : Int) ∨ (ts.length : Int) ≤ n - 1) :
    select ts line = Except.error PyErr.indexError := by
  unfold select
  rw [if_neg (by omega), hp]
  exact yield_all_err ts n post hn pre hpre

/-- Witness for C7: with toolchains [tcA, tcB, tcC] and input "2 5 1" the
number 5 is out of range and the selection fails with IndexError. -/
theorem select_out_of_range_raises_witness :
    select [tcA, tcB, tcC] "2 5 1" = Except.error PyErr.indexError := by
  exact select_out_of_range_raises [tcA, tcB, tcC] "2 5 1" [2] 5 [1] rfl
    (by decide) (by decide) (by decide)

/-- C8 amended: release_version is the version with a dash and the extra
version appended when the extra version is set to a non-empty string, and
is the version exactly when the extra version is unset or set to the empty
string. -/
theorem release_version_amended (v s : String) (h : s ≠ "") :
    release_version v none = v ∧ release_version v (some "") = v ∧
    release_version v (some s) = v ++ "-" ++ s := by
  refine ⟨rfl, rfl, ?_⟩
  unfold release_version truthy_opt_str
  rw [if_pos (by simp [h])]
  rfl

/-- Witness for C8: version 4.9.1 with extra version toolchainA gives
4.9.1-toolchainA, and without an extra version gives 4.9.1. -/
theorem release_version_amended_witness :
    release_version "4.9.1" none = "4.9.1" ∧
    release_version "4.9.1" (some "") = "4.9.1" ∧
    release_version "4.9.1" (some "toolchainA") = "4.9.1" ++ "-" ++ "toolchainA" :=
  release_version_amended "4.9.1" "toolchainA" (by decide)

end Kbuilder
